import Mathlib

/-!
Shallow embedding of the EduPath allocation logic (`src/edupath.py`).

The embedded fragment is the pure core: the grade-to-score table
`GRADE_TO_SCORE`, the per-student score computation in `allocate`
(line 48), the override branch of `allocate` (lines 41-45), and
`best_fit_allocation` (lines 61-80).  Pandas/Excel/JSON I/O is
abstracted away: the roster is a list of `StudentRow`s, the catalog a
list of `University`s, the override dict an association list.

Python exceptions are made explicit: `course.get("min_score", 0)`
defaults an absent field to 0, while the raw subscript
`c["min_score"]` inside the `next(...)` re-scan on line 75 raises
`KeyError` when the field is absent; the embedding therefore gives a
course an `Option Int` minimum score and lets the re-scan (and
everything calling it) return `Except String _`.
-/

/-- A course of the catalog document: a name and an optional
`min_score` field (`course.get("min_score", 0)` defaults it to 0). -/
structure Course where
  name : String
  min_score : Option Int
deriving Repr, DecidableEq

/-- A university of the catalog document: a name and an ordered list
of courses. -/
structure University where
  name : String
  courses : List Course
deriving Repr, DecidableEq

/-- A manual override entry: the forced (university, course) pair. -/
structure Override where
  university : String
  course : String
deriving Repr, DecidableEq

/-- A roster row: `Student ID` column, `Name` column, and the
data-driven subject columns as (column name, cell value) pairs. -/
structure StudentRow where
  studentId : String
  name : String
  subjects : List (String × String)
deriving Repr, DecidableEq

/-- An output row of `allocate`: the input row plus the three columns
written by the loop, `Allocated University`, `Allocated Course` and
`Reasoning`. -/
structure AllocRow where
  row : StudentRow
  allocatedUniversity : String
  allocatedCourse : String
  reasoning : String
deriving Repr, DecidableEq

/-- The `GRADE_TO_SCORE` dict of `edupath.py` (lines 13-20). -/
def GRADE_TO_SCORE : List (String × Int) :=
  [("A", 5), ("B", 4), ("C", 3), ("D", 2), ("E", 1), ("F", 0)]

/-- `GRADE_TO_SCORE.get(g, 0)`: dictionary lookup with default 0. -/
def gradeToScore (g : String) : Int :=
  ((GRADE_TO_SCORE.find? (fun p => p.1 == g)).map (fun p => p.2)).getD 0

/-- Line 48 of `edupath.py`: the total score of a row is the sum of
`GRADE_TO_SCORE.get(str(row[sub]), 0)` over every column except
`Student ID` and `Name`.  (The three allocation columns, blanked on
lines 33-35 before the loop, also appear in `row.index` there, but
`GRADE_TO_SCORE.get("", 0) = 0` so they contribute nothing.) -/
def totalScoreOf (r : StudentRow) : Int :=
  (r.subjects.map (fun p => gradeToScore p.2)).sum

/-- The flattened candidate stream of `best_fit_allocation`:
`for uni in universities: for course in uni["courses"]` as
(university name, course) pairs, in catalog order. -/
def catalogItems (universities : List University) : List (String × Course) :=
  universities.flatMap (fun u => u.courses.map (fun c => (u.name, c)))

/-- Line 75's re-scan:
`next((c["min_score"] for u in universities for c in u["courses"] if c["name"]==best_course), 0)`.
It returns the raw `min_score` of the first course in the whole
catalog whose *name* equals `best_course`, defaulting to 0 only when
no course has that name; a first match without the field raises
`KeyError`. -/
def rescanMinScore (universities : List University) (bestCourse : String) :
    Except String Int :=
  match (universities.flatMap (fun u => u.courses)).find? (fun c => c.name == bestCourse) with
  | none => .ok 0
  | some c =>
    match c.min_score with
    | some m => .ok m
    | none => .error "KeyError: min_score"

/-- One iteration of the loop body of `best_fit_allocation`
(lines 71-78), acting on the accumulator
(best_uni, best_course, reasoning).  Python's lazy `or` is kept: when
`best_course` is the (falsy) empty string the re-scan never runs. -/
def bestFitStep (universities : List University) (totalScore : Int)
    (acc : String × String × String) (item : String × Course) :
    Except String (String × String × String) :=
  if totalScore ≥ item.2.min_score.getD 0 then
    if acc.2.1 = "" then
      .ok (item.1, item.2.name,
        "Total score " ++ toString totalScore ++ " meets minimum " ++
          toString (item.2.min_score.getD 0))
    else
      match rescanMinScore universities acc.2.1 with
      | .error e => .error e
      | .ok m =>
        if item.2.min_score.getD 0 > m then
          .ok (item.1, item.2.name,
            "Total score " ++ toString totalScore ++ " meets minimum " ++
              toString (item.2.min_score.getD 0))
        else
          .ok acc
  else
    .ok acc

/-- `best_fit_allocation(student_row, universities, total_score)`
(lines 61-80): fold the loop body over the catalog, starting from
`("", "", "No suitable course found")`. -/
def best_fit_allocation (universities : List University) (totalScore : Int) :
    Except String (String × String × String) :=
  (catalogItems universities).foldlM (bestFitStep universities totalScore)
    ("", "", "No suitable course found")

/-- The per-row body of the loop in `allocate` (lines 37-54): override
lookup first (lines 41-45), otherwise score computation and best-fit
search; the input row's own cells are never written, only the three
allocation columns. -/
def allocateRow (universities : List University)
    (overrides : List (String × Override)) (r : StudentRow) :
    Except String AllocRow :=
  match overrides.find? (fun p => p.1 == r.studentId) with
  | some pr => .ok ⟨r, pr.2.university, pr.2.course, "Manual override applied"⟩
  | none =>
    match best_fit_allocation universities (totalScoreOf r) with
    | .error e => .error e
    | .ok (u, c, reason) => .ok ⟨r, u, c, reason⟩

/-- `allocate(excel_path, uni_json_path, overrides)` (lines 25-56)
restricted to its pure content: the loop over the roster rows, one
output row per input row, in roster order; an exception raised for
some row propagates out of the whole call. -/
def allocate (roster : List StudentRow) (universities : List University)
    (overrides : List (String × Override)) : Except String (List AllocRow) :=
  match roster with
  | [] => .ok []
  | r :: rest =>
    match allocateRow universities overrides r with
    | .error e => .error e
    | .ok a =>
      match allocate rest universities overrides with
      | .error e => .error e
      | .ok rows => .ok (a :: rows)

/-- Catalog with the course name "N" duplicated across universities:
UniA offers N (min 9); UniB offers N (min 2) and M (min 5). -/
def dupNameCatalog : List University :=
  [⟨"UniA", [⟨"N", some 9⟩]⟩, ⟨"UniB", [⟨"N", some 2⟩, ⟨"M", some 5⟩]⟩]

/-- Catalog with a tie at the maximal qualifying minimum: Uni1 offers
A (min 2), Uni2 offers A (min 5), Uni3 offers B (min 5). -/
def tieCatalog : List University :=
  [⟨"Uni1", [⟨"A", some 2⟩]⟩, ⟨"Uni2", [⟨"A", some 5⟩]⟩, ⟨"Uni3", [⟨"B", some 5⟩]⟩]

/-- Catalog whose first course has no `min_score` field at all. -/
def missingMinCatalog : List University :=
  [⟨"Uni1", [⟨"A", none⟩]⟩, ⟨"Uni2", [⟨"B", some 1⟩]⟩]

/-- Catalog of the spec's concrete scenario: CourseX (min 5) at UniA,
CourseY (min 9) at UniB. -/
def scenarioCatalog : List University :=
  [⟨"UniA", [⟨"CourseX", some 5⟩]⟩, ⟨"UniB", [⟨"CourseY", some 9⟩]⟩]

/-- Student of the spec's concrete scenario: grades Math A, Eng B. -/
def scenarioStudent : StudentRow :=
  ⟨"S1", "Alice", [("Math", "A"), ("Eng", "B")]⟩

/-- Shape of a `best_fit_allocation` success value: either the
untouched initial accumulator, or a triple built from some qualifying
catalog course, whose reasoning is the template sentence embedding the
student's score and that course's minimum threshold. -/
def goodResult (universities : List University) (score : Int)
    (res : String × String × String) : Prop :=
  res = ("", "", "No suitable course found") ∨
  ∃ u ∈ universities, ∃ c ∈ u.courses,
    res.1 = u.name ∧ res.2.1 = c.name ∧ score ≥ c.min_score.getD 0 ∧
    res.2.2 = "Total score " ++ toString score ++ " meets minimum " ++
      toString (c.min_score.getD 0)

/-! ## Helper lemmas -/

theorem gradeToScore_nonneg (g : String) : 0 ≤ gradeToScore g := by
  unfold gradeToScore
  rcases hf : GRADE_TO_SCORE.find? (fun p => p.1 == g) with _ | p
  · rw [hf]; simp
  · rw [hf]
    have hmem := List.mem_of_find?_eq_some hf
    simp only [GRADE_TO_SCORE, List.mem_cons, List.not_mem_nil, or_false] at hmem
    rcases hmem with h | h | h | h | h | h <;> subst h <;> simp

theorem sum_gradeToScore_nonneg (l : List (String × String)) :
    0 ≤ (l.map (fun p => gradeToScore p.2)).sum := by
  induction l with
  | nil => simp
  | cons p rest ih =>
    simp only [List.map_cons, List.sum_cons]
    exact add_nonneg (gradeToScore_nonneg p.2) ih

theorem gradeToScore_of_not_mem (g : String)
    (h : g ∉ ["A", "B", "C", "D", "E", "F"]) : gradeToScore g = 0 := by
  unfold gradeToScore
  rcases hf : GRADE_TO_SCORE.find? (fun p => p.1 == g) with _ | p
  · rw [hf]; simp
  · exfalso
    have hmem := List.mem_of_find?_eq_some hf
    have hpred := List.find?_some hf
    have hg : p.1 = g := by simpa using hpred
    subst hg
    simp only [GRADE_TO_SCORE, List.mem_cons, List.not_mem_nil, or_false] at hmem
    rcases hmem with hp | hp | hp | hp | hp | hp <;>
      rw [hp] at h <;> simp at h

theorem bestFitStep_ok_shape (unis : List University) (score : Int)
    (acc : String × String × String) (item : String × Course)
    (acc' : String × String × String)
    (h : bestFitStep unis score acc item = .ok acc') :
    acc' = acc ∨
      (acc' = (item.1, item.2.name,
        "Total score " ++ toString score ++ " meets minimum " ++
          toString (item.2.min_score.getD 0)) ∧
        score ≥ item.2.min_score.getD 0) := by
  unfold bestFitStep at h
  split at h
  next hq =>
    split at h
    next => exact Or.inr ⟨(Except.ok.inj h).symm, hq⟩
    next =>
      split at h
      next => exact Except.noConfusion h
      next =>
        split at h
        next => exact Or.inr ⟨(Except.ok.inj h).symm, hq⟩
        next => exact Or.inl (Except.ok.inj h).symm
  next => exact Or.inl (Except.ok.inj h).symm

theorem foldlM_bestFitStep_skip (unis : List University) (score : Int)
    (items : List (String × Course)) :
    ∀ acc : String × String × String,
      (∀ it ∈ items, score < it.2.min_score.getD 0) →
      items.foldlM (bestFitStep unis score) acc = .ok acc := by
  induction items with
  | nil => intro acc _; rfl
  | cons it rest ih =>
    intro acc h
    have h1 : score < it.2.min_score.getD 0 := h it (List.mem_cons_self it rest)
    have hstep : bestFitStep unis score acc it = .ok acc := by
      unfold bestFitStep
      rw [if_neg (not_le.mpr h1)]
    rw [List.foldlM_cons, hstep]
    have hb : ((Except.ok acc : Except String (String × String × String)) >>=
        fun b => rest.foldlM (bestFitStep unis score) b) =
        rest.foldlM (bestFitStep unis score) acc := rfl
    rw [hb]
    exact ih acc (fun x hx => h x (List.mem_cons_of_mem it hx))

theorem foldlM_bestFitStep_good (unis : List University) (score : Int)
    (items : List (String × Course)) :
    ∀ acc res : String × String × String,
      (∀ it ∈ items, ∃ u ∈ unis, it.1 = u.name ∧ it.2 ∈ u.courses) →
      goodResult unis score acc →
      items.foldlM (bestFitStep unis score) acc = .ok res →
      goodResult unis score res := by
  induction items with
  | nil =>
    intro acc res _ hacc hres
    cases Except.ok.inj hres
    exact hacc
  | cons it rest ih =>
    intro acc res hsub hacc hres
    rw [List.foldlM_cons] at hres
    rcases hstep : bestFitStep unis score acc it with e | acc'
    · rw [hstep] at hres
      exact Except.noConfusion hres
    · rw [hstep] at hres
      have hb : ((Except.ok acc' : Except String (String × String × String)) >>=
          fun b => rest.foldlM (bestFitStep unis score) b) =
          rest.foldlM (bestFitStep unis score) acc' := rfl
      rw [hb] at hres
      have hacc' : goodResult unis score acc' := by
        rcases bestFitStep_ok_shape unis score acc it acc' hstep with hkeep | ⟨hupd, hq⟩
        · rw [hkeep]; exact hacc
        · rcases hsub it (List.mem_cons_self it rest) with ⟨u, hu, hn, hc⟩
          exact Or.inr ⟨u, hu, it.2, hc, by rw [hupd, hn], by rw [hupd], hq, by rw [hupd]⟩
      exact ih acc' res (fun x hx => hsub x (List.mem_cons_of_mem it hx)) hacc' hres

theorem allocateRow_ok_row (unis : List University)
    (ovs : List (String × Override)) (r : StudentRow) (a : AllocRow)
    (h : allocateRow unis ovs r = .ok a) : a.row = r := by
  unfold allocateRow at h
  split at h
  next => cases Except.ok.inj h; rfl
  next =>
    split at h
    next => exact Except.noConfusion h
    next => cases Except.ok.inj h; rfl

theorem allocate_ok_map_row (unis : List University)
    (ovs : List (String × Override)) :
    ∀ (roster : List StudentRow) (out : List AllocRow),
      allocate roster unis ovs = .ok out → out.map AllocRow.row = roster := by
  intro roster
  induction roster with
  | nil =>
    intro out h
    cases Except.ok.inj h
    rfl
  | cons r rest ih =>
    intro out h
    unfold allocate at h
    split at h
    next => exact Except.noConfusion h
    next a ha =>
      split at h
      next => exact Except.noConfusion h
      next rows hrows =>
        cases Except.ok.inj h
        simp only [List.map_cons]
        rw [allocateRow_ok_row unis ovs r a ha, ih rows hrows]

/-! ## Claim theorems -/

/-- C1: the selected course's minimum is claimed to be the maximum
minimum among qualifying courses, but on `dupNameCatalog` with score 5
the code returns UniB's course N (minimum 2) even though UniB's course
M (minimum 5) is in the catalog, qualifies (5 ≥ 5) and has a strictly
higher minimum (5 > 2): the line-75 re-scan looks the running best up
by course *name* and fetches UniA's homonymous N (minimum 9), so M is
wrongly rejected. -/
theorem C1_maximality_fails_on_duplicate_names :
    best_fit_allocation dupNameCatalog 5 =
      .ok ("UniB", "N", "Total score 5 meets minimum 2") ∧
    (⟨"M", some 5⟩ : Course) ∈ dupNameCatalog.flatMap University.courses ∧
    (5 : Int) ≥ (Course.mk "M" (some 5)).min_score.getD 0 ∧
    (Course.mk "M" (some 5)).min_score.getD 0 > (2 : Int) := by
  refine ⟨rfl, ?_, ?_, ?_⟩
  · simp [dupNameCatalog]
  · simp
  · simp

/-- C2: the tie-break is claimed to pick the first candidate in
catalog order among those with the maximal qualifying minimum,
distinguished by (university, course) identity; but on `tieCatalog`
with score 5 the candidates with maximal minimum 5 are, in catalog
order, (Uni2, A) then (Uni3, B), and the code selects (Uni3, B): the
line-75 re-scan keys the running best on the course name "A" and finds
Uni1's A (minimum 2), so the later tied candidate wrongly wins. -/
theorem C2_tiebreak_not_first_candidate :
    best_fit_allocation tieCatalog 5 =
      .ok ("Uni3", "B", "Total score 5 meets minimum 5") ∧
    catalogItems tieCatalog =
      [("Uni1", ⟨"A", some 2⟩), ("Uni2", ⟨"A", some 5⟩), ("Uni3", ⟨"B", some 5⟩)] ∧
    (5 : Int) ≥ (Course.mk "A" (some 5)).min_score.getD 0 := by
  refine ⟨rfl, rfl, ?_⟩
  simp

/-- C3: a student whose identifier is found in the override table gets
exactly the override's (university, course) pair with reasoning
"Manual override applied", for every catalog whatsoever — scoring and
catalog search are skipped. -/
theorem C3_override_applied (unis : List University)
    (ovs : List (String × Override)) (r : StudentRow) (pr : String × Override)
    (h : ovs.find? (fun p => p.1 == r.studentId) = some pr) :
    allocateRow unis ovs r =
      .ok ⟨r, pr.2.university, pr.2.course, "Manual override applied"⟩ := by
  unfold allocateRow
  rw [h]

theorem C3_override_applied_witness :
    allocateRow [] [("S42", ⟨"UniC", "CourseZ"⟩)] ⟨"S42", "Zed", [("Math", "A")]⟩ =
      .ok ⟨⟨"S42", "Zed", [("Math", "A")]⟩, "UniC", "CourseZ", "Manual override applied"⟩ :=
  C3_override_applied [] [("S42", ⟨"UniC", "CourseZ"⟩)] ⟨"S42", "Zed", [("Math", "A")]⟩
    ("S42", ⟨"UniC", "CourseZ"⟩) (by rfl)

/-- C4: a student with no override entry whose score is below every
course's minimum — vacuously so when the catalog is empty — gets
exactly the non-fatal result ("", "", "No suitable course found"). -/
theorem C4_no_qualifying_course (unis : List University)
    (ovs : List (String × Override)) (r : StudentRow)
    (hov : ovs.find? (fun p => p.1 == r.studentId) = none)
    (h : ∀ u ∈ unis, ∀ c ∈ u.courses, totalScoreOf r < c.min_score.getD 0) :
    allocateRow unis ovs r = .ok ⟨r, "", "", "No suitable course found"⟩ := by
  unfold allocateRow
  rw [hov]
  have hbf : best_fit_allocation unis (totalScoreOf r) =
      .ok ("", "", "No suitable course found") := by
    unfold best_fit_allocation
    apply foldlM_bestFitStep_skip
    intro it hit
    simp only [catalogItems, List.mem_flatMap, List.mem_map] at hit
    obtain ⟨u, hu, c, hc, hit⟩ := hit
    rw [← hit]
    exact h u hu c hc
  rw [hbf]

theorem C4_no_qualifying_course_witness :
    allocateRow [⟨"U1", [⟨"C1", some 5⟩]⟩] [] ⟨"S9", "Bo", [("Math", "C")]⟩ =
      .ok ⟨⟨"S9", "Bo", [("Math", "C")]⟩, "", "", "No suitable course found"⟩ :=
  C4_no_qualifying_course [⟨"U1", [⟨"C1", some 5⟩]⟩] [] ⟨"S9", "Bo", [("Math", "C")]⟩
    (by rfl) (by decide)

/-- C5: the computed score is the sum, over the subject columns (all
columns except `Student ID` and `Name`), of the grade map applied to
the cell value, with A=5, B=4, C=3, D=2, E=1, F=0, any other value
contributing 0, and the total is always non-negative. -/
theorem C5_score_is_grade_sum (r : StudentRow) :
    totalScoreOf r = (r.subjects.map (fun p => gradeToScore p.2)).sum ∧
    0 ≤ totalScoreOf r ∧
    gradeToScore "A" = 5 ∧ gradeToScore "B" = 4 ∧ gradeToScore "C" = 3 ∧
    gradeToScore "D" = 2 ∧ gradeToScore "E" = 1 ∧ gradeToScore "F" = 0 ∧
    ∀ g : String, g ∉ ["A", "B", "C", "D", "E", "F"] → gradeToScore g = 0 := by
  exact ⟨rfl, sum_gradeToScore_nonneg r.subjects, by decide, by decide, by decide,
    by decide, by decide, by decide, gradeToScore_of_not_mem⟩

theorem C5_score_is_grade_sum_witness :
    totalScoreOf ⟨"S1", "Al", [("Math", "A"), ("Eng", "Q")]⟩ = 5 ∧
    0 ≤ totalScoreOf ⟨"S1", "Al", [("Math", "A"), ("Eng", "Q")]⟩ :=
  ⟨by decide, (C5_score_is_grade_sum ⟨"S1", "Al", [("Math", "A"), ("Eng", "Q")]⟩).2.1⟩

/-- C6: every successful best-fit result other than the unallocated
default comes from a qualifying catalog course and carries the
template reasoning embedding the score and that course's minimum; and
the spec's concrete scenario — grades Math A, Eng B (score 9) against
CourseX (min 5) at UniA and CourseY (min 9) at UniB — yields
UniB/CourseY with reasoning "Total score 9 meets minimum 9". -/
theorem C6_reasoning_template (unis : List University) (score : Int)
    (res : String × String × String)
    (hres : best_fit_allocation unis score = .ok res) :
    goodResult unis score res ∧
    allocateRow scenarioCatalog [] scenarioStudent =
      .ok ⟨scenarioStudent, "UniB", "CourseY", "Total score 9 meets minimum 9"⟩ := by
  constructor
  · refine foldlM_bestFitStep_good unis score (catalogItems unis)
      ("", "", "No suitable course found") res ?_ (Or.inl rfl) hres
    intro it hit
    simp only [catalogItems, List.mem_flatMap, List.mem_map] at hit
    obtain ⟨u, hu, c, hc, hit⟩ := hit
    exact ⟨u, hu, by rw [← hit], by rw [← hit]; exact hc⟩
  · rfl

theorem C6_reasoning_template_witness :
    goodResult scenarioCatalog 9 ("UniB", "CourseY", "Total score 9 meets minimum 9") ∧
    allocateRow scenarioCatalog [] scenarioStudent =
      .ok ⟨scenarioStudent, "UniB", "CourseY", "Total score 9 meets minimum 9"⟩ :=
  C6_reasoning_template scenarioCatalog 9
    ("UniB", "CourseY", "Total score 9 meets minimum 9") (by rfl)

/-- C7: a course with no minimum-score field is claimed to be treated
as having minimum 0 throughout; line 72 indeed defaults it to 0 (so it
qualifies for the score 3 here), but once it is the running best the
line-75 re-scan reads the raw field and the whole allocation raises
KeyError instead of treating it as 0. -/
theorem C7_missing_min_score_raises :
    best_fit_allocation missingMinCatalog 3 = .error "KeyError: min_score" ∧
    (Course.mk "A" none).min_score.getD 0 = 0 ∧
    (3 : Int) ≥ (Course.mk "A" none).min_score.getD 0 := by
  refine ⟨rfl, rfl, ?_⟩
  simp

/-- C8: whenever `allocate` returns a table, it has exactly one output
row per roster row and the rows are in roster order. -/
theorem C8_one_result_per_student (roster : List StudentRow)
    (unis : List University) (ovs : List (String × Override))
    (out : List AllocRow) (h : allocate roster unis ovs = .ok out) :
    out.length = roster.length ∧
    ∀ i : Nat, ∀ hi : i < out.length, ∀ hi' : i < roster.length,
      (out.get ⟨i, hi⟩).row = roster.get ⟨i, hi'⟩ := by
  have hmap := allocate_ok_map_row unis ovs roster out h
  subst hmap
  refine ⟨(List.length_map out AllocRow.row).symm, ?_⟩
  intro i hi hi'
  simp [List.get_eq_getElem, List.getElem_map]

theorem C8_one_result_per_student_witness :
    ([⟨⟨"S1", "Ann", [("Math", "B")]⟩, "U", "C", "Total score 4 meets minimum 1"⟩] :
        List AllocRow).length = [(⟨"S1", "Ann", [("Math", "B")]⟩ : StudentRow)].length ∧
    ∀ i : Nat,
      ∀ hi : i < ([⟨⟨"S1", "Ann", [("Math", "B")]⟩, "U", "C",
        "Total score 4 meets minimum 1"⟩] : List AllocRow).length,
      ∀ hi' : i < [(⟨"S1", "Ann", [("Math", "B")]⟩ : StudentRow)].length,
      (([⟨⟨"S1", "Ann", [("Math", "B")]⟩, "U", "C", "Total score 4 meets minimum 1"⟩] :
        List AllocRow).get ⟨i, hi⟩).row =
        [(⟨"S1", "Ann", [("Math", "B")]⟩ : StudentRow)].get ⟨i, hi'⟩ :=
  C8_one_result_per_student [⟨"S1", "Ann", [("Math", "B")]⟩] [⟨"U", [⟨"C", some 1⟩]⟩] []
    [⟨⟨"S1", "Ann", [("Math", "B")]⟩, "U", "C", "Total score 4 meets minimum 1"⟩] (by rfl)

/-- C9: allocation is a deterministic function of exactly the roster,
the catalog and the override table — the embedded `allocate` mentions
no other state, so two runs on equal inputs return equal results. -/
theorem C9_rerun_identical (roster₁ roster₂ : List StudentRow)
    (unis₁ unis₂ : List University) (ovs₁ ovs₂ : List (String × Override))
    (hr : roster₁ = roster₂) (hu : unis₁ = unis₂) (ho : ovs₁ = ovs₂) :
    allocate roster₁ unis₁ ovs₁ = allocate roster₂ unis₂ ovs₂ := by
  rw [hr, hu, ho]

theorem C9_rerun_identical_witness :
    allocate [⟨"S1", "Ann", [("Math", "A")]⟩] [⟨"U", [⟨"C", some 2⟩]⟩] [] =
      allocate [⟨"S1", "Ann", [("Math", "A")]⟩] [⟨"U", [⟨"C", some 2⟩]⟩] [] :=
  C9_rerun_identical _ _ _ _ _ _ rfl rfl rfl

/-- C10: whenever `allocate` returns a table, projecting every output
row to its input columns gives back exactly the input roster, rows in
input order — the identifier, name and subject-grade cells are left
untouched, only the three allocation fields are written. -/
theorem C10_frame_input_columns_unchanged (roster : List StudentRow)
    (unis : List University) (ovs : List (String × Override))
    (out : List AllocRow) (h : allocate roster unis ovs = .ok out) :
    out.map AllocRow.row = roster ∧
    ∀ a ∈ out, ∃ r ∈ roster, a.row.studentId = r.studentId ∧
      a.row.name = r.name ∧ a.row.subjects = r.subjects := by
  have hmap := allocate_ok_map_row unis ovs roster out h
  refine ⟨hmap, ?_⟩
  intro a ha
  refine ⟨a.row, ?_, rfl, rfl, rfl⟩
  rw [← hmap]
  exact List.mem_map_of_mem AllocRow.row ha

theorem C10_frame_witness :
    ([⟨⟨"S2", "Bea", [("Sci", "A")]⟩, "UX", "CX", "Manual override applied"⟩] :
        List AllocRow).map AllocRow.row = [⟨"S2", "Bea", [("Sci", "A")]⟩] ∧
    ∀ a ∈ ([⟨⟨"S2", "Bea", [("Sci", "A")]⟩, "UX", "CX", "Manual override applied"⟩] :
        List AllocRow), ∃ r ∈ [(⟨"S2", "Bea", [("Sci", "A")]⟩ : StudentRow)],
      a.row.studentId = r.studentId ∧ a.row.name = r.name ∧ a.row.subjects = r.subjects :=
  C10_frame_input_columns_unchanged [⟨"S2", "Bea", [("Sci", "A")]⟩] []
    [("S2", ⟨"UX", "CX"⟩)]
    [⟨⟨"S2", "Bea", [("Sci", "A")]⟩, "UX", "CX", "Manual override applied"⟩] (by rfl)
